import Mathlib

/-!
Verification of the ledger-api bookkeeping service (Django/DRF).

Shallow embedding conventions:
* `DecimalField(max_digits=12, decimal_places=2)` amounts are exact multiples of
  0.01, so they are embedded as integer *cents* (`ℤ`); every Decimal operation
  the code performs (sums, differences) is closed over cents and exact.
* Django query sets are embedded as list filters over an explicit database
  state (`DB`); `Meta.ordering` is embedded as an insertion sort by the
  declared descending key, applied when a query set is materialised.
* Python `float(...)` conversions in the views are embedded by an exact model
  of IEEE-754 binary64 round-to-nearest-even on integer fractions (`pyFloat`).
* Request parameters are `Option` values: `none` means the query parameter is
  absent.  Fallible handlers return inductive response types mirroring the
  HTTP responses the code builds (400 / 404 / 200 payloads).
-/

/-- Entry type, from `LedgerEntry.TYPE_CHOICES` in models.py (`CREDIT`/`DEBIT`). -/
inductive EntryType where
  | credit
  | debit
deriving DecidableEq

/-- String stored in the `type` column for each `EntryType` (models.py choices). -/
def typeStrOf : EntryType → String
  | .credit => "CREDIT"
  | .debit => "DEBIT"

/-- Calendar date, as Django `DateField` values.  Chronological order on valid
dates is lexicographic on (year, month, day). -/
structure Date where
  year : ℕ
  month : ℕ
  day : ℕ
deriving DecidableEq

/-- Strict chronological order on dates (lexicographic). -/
def dateLtP (a b : Date) : Prop :=
  a.year < b.year ∨ (a.year = b.year ∧ (a.month < b.month ∨ (a.month = b.month ∧ a.day < b.day)))

/-- Componentwise equality of dates, spelled arithmetically. -/
def dateEqP (a b : Date) : Prop :=
  a.year = b.year ∧ a.month = b.month ∧ a.day = b.day

/-- Non-strict chronological order on dates (lexicographic), as used by the
`entry_date__gte` / `entry_date__lte` query-set filters. -/
def dateLeP (a b : Date) : Prop :=
  a.year < b.year ∨ (a.year = b.year ∧ (a.month < b.month ∨ (a.month = b.month ∧ a.day ≤ b.day)))

instance : DecidableRel dateLtP := fun a b =>
  decidable_of_iff
    (a.year < b.year ∨ (a.year = b.year ∧ (a.month < b.month ∨ (a.month = b.month ∧ a.day < b.day))))
    Iff.rfl

instance : DecidableRel dateEqP := fun a b =>
  decidable_of_iff (a.year = b.year ∧ a.month = b.month ∧ a.day = b.day) Iff.rfl

instance : DecidableRel dateLeP := fun a b =>
  decidable_of_iff
    (a.year < b.year ∨ (a.year = b.year ∧ (a.month < b.month ∨ (a.month = b.month ∧ a.day ≤ b.day))))
    Iff.rfl

/-- `Customer` row (models.py): owner, profile fields, creation timestamp
(`created_at` embedded as a ℕ ordinal). -/
structure Customer where
  id : ℕ
  userId : ℕ
  name : String
  phone : Option String
  address : Option String
  createdAt : ℕ
deriving DecidableEq

/-- `LedgerEntry` row (models.py): owning customer, type, amount in cents
(`DecimalField(12,2)`), optional note, `entry_date` and `created_at`
(the latter embedded as a ℕ ordinal). -/
structure Entry where
  id : ℕ
  customerId : ℕ
  type : EntryType
  amount : ℤ
  note : Option String
  entryDate : Date
  createdAt : ℕ
deriving DecidableEq

/-- The relational store: all customers and ledger entries. -/
structure DB where
  customers : List Customer
  entries : List Entry
deriving DecidableEq

/-- `LedgerEntry.Meta.ordering = ['-entry_date', '-created_at']`: `a` may come
before `b` when `a`'s key (entry_date, created_at) is lexicographically at
least `b`'s, i.e. newest first. -/
def newestFirst (a b : Entry) : Prop :=
  dateLtP b.entryDate a.entryDate ∨ (dateEqP b.entryDate a.entryDate ∧ b.createdAt ≤ a.createdAt)

instance : DecidableRel newestFirst := fun a b =>
  decidable_of_iff
    (dateLtP b.entryDate a.entryDate ∨ (dateEqP b.entryDate a.entryDate ∧ b.createdAt ≤ a.createdAt))
    Iff.rfl

instance : IsTotal Entry newestFirst :=
  ⟨by intro a b; unfold newestFirst dateLtP dateEqP; omega⟩

instance : IsTrans Entry newestFirst :=
  ⟨by intro a b c hab hbc; unfold newestFirst dateLtP dateEqP at *; omega⟩

/-- `Customer.Meta.ordering = ['-created_at']`: newest customer first. -/
def customerNewer (a b : Customer) : Prop := b.createdAt ≤ a.createdAt

instance : DecidableRel customerNewer := fun a b =>
  decidable_of_iff (b.createdAt ≤ a.createdAt) Iff.rfl

instance : IsTotal Customer customerNewer :=
  ⟨by intro a b; unfold customerNewer; omega⟩

instance : IsTrans Customer customerNewer :=
  ⟨by intro a b c hab hbc; unfold customerNewer at *; omega⟩

/-- Materialising a `LedgerEntry` query set applies the model's declared
ordering (ORDER BY entry_date DESC, created_at DESC). -/
def orderEntries (l : List Entry) : List Entry := List.insertionSort newestFirst l

/-- Materialising a `Customer` query set applies ORDER BY created_at DESC. -/
def orderCustomers (l : List Customer) : List Customer := List.insertionSort customerNewer l

/-- `Customer.objects.get(id=cid, user=uid)` (primary keys are unique, so the
first match is the only one); `none` embeds the `DoesNotExist` outcome. -/
def findCustomer (db : DB) (uid cid : ℕ) : Option Customer :=
  db.customers.find? (fun c => decide (c.id = cid) && decide (c.userId = uid))

/-- `entries.aggregate(Sum('amount'))['amount__sum']`: Django's SUM aggregate is
`None` on an empty set, otherwise the exact Decimal sum. -/
def aggSum (l : List Entry) : Option ℤ :=
  match l with
  | [] => none
  | _ :: _ => some (l.foldl (fun a e => a + e.amount) 0)

/-- Python `x or 0` applied to an aggregate result: `None` and a zero Decimal
are falsy and give the int `0`; any other value passes through.  Numerically
this is `Option.getD 0`, but the falsy test is kept from the source. -/
def pyOrZero (o : Option ℤ) : ℤ :=
  match o with
  | none => 0
  | some v => if v = 0 then 0 else v

/-- Result of `Customer.get_summary` (models.py lines 21-33), all in cents. -/
structure Summary where
  total_credit : ℤ
  total_debit : ℤ
  balance : ℤ
deriving DecidableEq

/-- `Customer.get_summary` (models.py 21-33): filter the customer's entries by
type, SUM the amounts with `or 0` fallback, and take the difference. -/
def get_summary (db : DB) (cid : ℕ) : Summary :=
  let entries := db.entries.filter (fun e => decide (e.customerId = cid))
  let total_credit := pyOrZero (aggSum (entries.filter (fun e => decide (e.type = EntryType.credit))))
  let total_debit := pyOrZero (aggSum (entries.filter (fun e => decide (e.type = EntryType.debit))))
  { total_credit := total_credit, total_debit := total_debit, balance := total_credit - total_debit }

/-- Monetary fields of the `CustomerSummarySerializer` response
(serializers.py 65-94): the three `get_summary` values plus
`entries_count = obj.ledger_entries.count()`. -/
structure SummaryView where
  total_credit : ℤ
  total_debit : ℤ
  balance : ℤ
  entries_count : ℕ
deriving DecidableEq

/-- The `/customers/{id}/summary/` payload computed by
`CustomerSummarySerializer` for an existing customer `cid`. -/
def customer_summary (db : DB) (cid : ℕ) : SummaryView :=
  let s := get_summary db cid
  { total_credit := s.total_credit
    total_debit := s.total_debit
    balance := s.balance
    entries_count := (db.entries.filter (fun e => decide (e.customerId = cid))).length }

theorem foldl_add_amount (l : List Entry) (a : ℤ) :
    l.foldl (fun x e => x + e.amount) a = a + (l.map (fun e => e.amount)).sum := by
  induction l generalizing a with
  | nil => simp
  | cons e t ih => simp [ih, add_assoc]

theorem pyOrZero_aggSum (l : List Entry) :
    pyOrZero (aggSum l) = (l.map (fun e => e.amount)).sum := by
  cases l with
  | nil => rfl
  | cons e t =>
    show pyOrZero (some ((e :: t).foldl (fun a x => a + x.amount) 0)) = _
    rw [foldl_add_amount]
    simp only [pyOrZero, zero_add]
    split
    · next h => exact h.symm
    · rfl

/-- C1: for every customer, the summary computation returns `total_credit`
equal to the sum of amounts of that customer's CREDIT entries, `total_debit`
the sum over DEBIT entries, `balance = total_credit - total_debit`; a missing
type contributes `0` (the sums over the empty filter), and a customer with no
entries at all has all three totals `0` and `entries_count = 0`. -/
theorem C1_summary_correct (db : DB) (cid : ℕ) :
    (customer_summary db cid).total_credit
      = (((db.entries.filter (fun e => decide (e.customerId = cid))).filter
          (fun e => decide (e.type = EntryType.credit))).map (fun e => e.amount)).sum
  ∧ (customer_summary db cid).total_debit
      = (((db.entries.filter (fun e => decide (e.customerId = cid))).filter
          (fun e => decide (e.type = EntryType.debit))).map (fun e => e.amount)).sum
  ∧ (customer_summary db cid).balance
      = (customer_summary db cid).total_credit - (customer_summary db cid).total_debit
  ∧ (db.entries.filter (fun e => decide (e.customerId = cid)) = [] →
      (customer_summary db cid).total_credit = 0
      ∧ (customer_summary db cid).total_debit = 0
      ∧ (customer_summary db cid).balance = 0
      ∧ (customer_summary db cid).entries_count = 0) := by
  refine ⟨?_, ?_, rfl, ?_⟩
  · exact pyOrZero_aggSum _
  · exact pyOrZero_aggSum _
  · intro h
    simp [customer_summary, get_summary, h, aggSum, pyOrZero]

/-- Witness for C1 at a concrete empty database. -/
theorem C1_witness :
    (customer_summary ⟨[], []⟩ 7).total_credit = 0
    ∧ (customer_summary ⟨[], []⟩ 7).total_debit = 0
    ∧ (customer_summary ⟨[], []⟩ 7).balance = 0
    ∧ (customer_summary ⟨[], []⟩ 7).entries_count = 0 :=
  (C1_summary_correct ⟨[], []⟩ 7).2.2.2 rfl

/-- Exact value of a finite IEEE-754 binary64 number, kept as an unreduced
integer fraction `num / den` with `den` a power of two.  Python `float`s in the
views are embedded as their exact `Frac` values. -/
structure Frac where
  num : ℤ
  den : ℤ
deriving DecidableEq

/-- The `Frac` value `f` equals the exact decimal amount of `c` cents,
i.e. `f.num / f.den = c / 100` (cross-multiplied to stay in ℤ). -/
def fracEqCents (f : Frac) (c : ℤ) : Prop := f.num * 100 = c * f.den

instance : ∀ f c, Decidable (fracEqCents f c) := fun f c =>
  decidable_of_iff (f.num * 100 = c * f.den) Iff.rfl

/-- Round-half-to-even of the fraction `N / D` (`D > 0`): the integer nearest
to `N / D`, ties going to the even integer — IEEE-754 default rounding. -/
def rndHalfEven (N D : ℤ) : ℤ :=
  let q := Int.ediv N D
  let r := Int.emod N D
  if 2 * r < D then q
  else if D < 2 * r then q + 1
  else if Int.emod q 2 = 0 then q else q + 1

/-- Fuelled search for the binary exponent when `n ≥ d`: doubles `d` while
`2·d ≤ n`, so it returns the largest `e` with `d·2^e ≤ n`. -/
def flExpUp : ℕ → ℤ → ℤ → ℤ → ℤ
  | 0, _, _, e => e
  | fuel + 1, n, d, e => if 2 * d ≤ n then flExpUp fuel n (2 * d) (e + 1) else e

/-- Fuelled search for the binary exponent when `n < d`: doubles `n` while it
stays below `d`, returning `-k` for the least `k` with `n·2^k ≥ d`. -/
def flExpDown : ℕ → ℤ → ℤ → ℤ → ℤ
  | 0, _, _, e => e
  | fuel + 1, n, d, e => if 2 * n < d then flExpDown fuel (2 * n) d (e - 1) else e - 1

/-- Binary exponent of the positive fraction `n / d`: the `e` with
`2^e ≤ n/d < 2^(e+1)`.  Fuel 1200 exceeds the binary64 exponent span, so the
search always terminates inside the fuel for values in the finite range. -/
def flExp (n d : ℤ) : ℤ :=
  if d ≤ n then flExpUp 1200 n d 0 else flExpDown 1200 n d 0

/-- Models CPython `float(x)` for the exact rational `x = n / d` (`d > 0`):
round to nearest binary64, ties to even, returned as its exact `Frac` value.
Valid on the normal finite range `2^-1022 ≤ |x| < 2^1024`, which contains
every nonzero sum of amounts the `DecimalField(12, 2)` column can hold. -/
def pyFloat (n d : ℤ) : Frac :=
  if n = 0 then ⟨0, 1⟩
  else
    let a := |n|
    let e := flExp a d
    let m :=
      if 0 ≤ 52 - e then rndHalfEven (a * ((2 ^ (52 - e).toNat : ℕ) : ℤ)) d
      else rndHalfEven a (d * ((2 ^ (e - 52).toNat : ℕ) : ℤ))
    let sgn : ℤ := if n < 0 then -1 else 1
    if 0 ≤ e - 52 then ⟨sgn * m * ((2 ^ (e - 52).toNat : ℕ) : ℤ), 1⟩
    else ⟨sgn * m, ((2 ^ (52 - e).toNat : ℕ) : ℤ)⟩

/-- IEEE-754 binary64 addition of two exactly-represented floats: the exact
sum of the two fractions, rounded back to binary64. -/
def pyAdd (x y : Frac) : Frac :=
  pyFloat (x.num * y.den + y.num * x.den) (x.den * y.den)

/-- `float(amount)` for an exact Decimal amount of `c` cents. -/
def floatOfCents (c : ℤ) : Frac := pyFloat c 100

/-- Python `sum(float(a) for a in amounts)` (views.py 232): starts from the
int `0` (exactly representable) and accumulates with binary64 additions, in
iteration order. -/
def pySumFloat (amounts : List ℤ) : Frac :=
  amounts.foldl (fun acc c => pyAdd acc (floatOfCents c)) ⟨0, 1⟩

/-- Response of the `filter_by_type` action (views.py 207-243). -/
inductive TypeFilterResp where
  | badRequest (error : String)
  | notFound (error : String)
  | ok (entries : List Entry) (total_amount : Frac) (entries_count : ℕ)
deriving DecidableEq

/-- `LedgerEntryViewSet.filter_by_type` (views.py 207-243): require
`customer_id`, require `type ∈ {CREDIT, DEBIT}` (empty or anything else is a
400), resolve the owned customer (404 on miss), then return the customer's
entries of that type, their float total (`sum(float(e.amount))`), and count. -/
def filter_by_type (db : DB) (uid : ℕ) (customer_id : Option ℕ) (etype : Option String) :
    TypeFilterResp :=
  match customer_id with
  | none => .badRequest "customer_id Needed"
  | some cid =>
    match etype with
    | none => .badRequest "type must be CREDIT or DEBIT"
    | some t =>
      if t = "CREDIT" ∨ t = "DEBIT" then
        match findCustomer db uid cid with
        | none => .notFound "Customer not found"
        | some c =>
          let ents := orderEntries ((db.entries.filter (fun e => decide (e.customerId = c.id))).filter
            (fun e => decide (typeStrOf e.type = t)))
          .ok ents (pySumFloat (ents.map (fun e => e.amount))) ents.length
      else .badRequest "type must be CREDIT or DEBIT"

/-- Response of the `statistics` action (views.py 245-264); the three money
totals are Python floats. -/
structure Stats where
  total_customers : ℕ
  total_credit : Frac
  total_debit : Frac
  total_balance : Frac
  total_entries : ℕ
deriving DecidableEq

/-- `LedgerEntryViewSet.statistics` (views.py 245-264): over the caller's
customers, count them, then fold each customer's `get_summary` into float
accumulators via `float(...)` conversions, and add up entry counts. -/
def statistics (db : DB) (uid : ℕ) : Stats :=
  let cs := db.customers.filter (fun c => decide (c.userId = uid))
  cs.foldl
    (fun st c =>
      let s := get_summary db c.id
      { st with
        total_credit := pyAdd st.total_credit (floatOfCents s.total_credit)
        total_debit := pyAdd st.total_debit (floatOfCents s.total_debit)
        total_balance := pyAdd st.total_balance (floatOfCents s.balance)
        total_entries := st.total_entries + (db.entries.filter (fun e => decide (e.customerId = c.id))).length })
    { total_customers := cs.length
      total_credit := ⟨0, 1⟩
      total_debit := ⟨0, 1⟩
      total_balance := ⟨0, 1⟩
      total_entries := 0 }


/-- Projection: the `entries_count` field of a successful type-filter response. -/
def tfCount : TypeFilterResp → Option ℕ
  | .ok _ _ n => some n
  | _ => none

/-- The type-filter response succeeded and its `total_amount` float equals the
exact decimal amount of `c` cents. -/
def tfTotalEqCents (r : TypeFilterResp) (c : ℤ) : Prop :=
  match r with
  | .ok _ t _ => fracEqCents t c
  | _ => False

instance : ∀ r c, Decidable (tfTotalEqCents r c)
  | .badRequest _, _ => isFalse id
  | .notFound _, _ => isFalse id
  | .ok _ t _, c => inferInstanceAs (Decidable (fracEqCents t c))

/-- Customer 10 of user 1, used in the concrete evaluations below. -/
def karim : Customer := ⟨10, 1, "Karim", some "01700000001", none, 0⟩

/-- Database with a single CREDIT entry of 0.01 (one cent) for customer 10. -/
def dbCent : DB := ⟨[karim], [⟨1, 10, .credit, 1, none, ⟨2024, 1, 1⟩, 0⟩]⟩

/-- Database with CREDIT entries of 0.10 and 0.20 for customer 10. -/
def dbTenTwenty : DB :=
  ⟨[karim], [⟨1, 10, .credit, 10, none, ⟨2024, 1, 1⟩, 0⟩, ⟨2, 10, .credit, 20, none, ⟨2024, 1, 2⟩, 1⟩]⟩

/-- Database with two customers of user 1, holding one CREDIT entry each of
0.10 and 0.20 respectively. -/
def dbStats : DB :=
  ⟨[karim, ⟨20, 1, "Rahim", none, none, 1⟩],
   [⟨1, 10, .credit, 10, none, ⟨2024, 1, 1⟩, 0⟩, ⟨2, 20, .credit, 20, none, ⟨2024, 1, 2⟩, 1⟩]⟩

/-- C4 (code bug): the summary is exact decimal, but the type-filter total is
computed through Python `float` (views.py 232): for a single CREDIT entry of
0.01 the summary yields exactly 0.01 while the type-filter total and the
statistics total are the binary64 rounding of 0.01, which differs from the
exact decimal — so the amount does not round-trip to two decimal places. -/
theorem C4_binary_float_in_totals :
    (customer_summary dbCent 10).total_credit = 1
  ∧ tfCount (filter_by_type dbCent 1 (some 10) (some "CREDIT")) = some 1
  ∧ ¬ tfTotalEqCents (filter_by_type dbCent 1 (some 10) (some "CREDIT")) 1
  ∧ ¬ fracEqCents (statistics dbCent 1).total_credit 1 := by decide

/-- C6 (code bug): the type validation behaves as claimed (missing or invalid
`type` is a 400) and the count is right, but the returned total is the float
sum `float(0.10) + float(0.20)`, which is not the sum 0.30 of the amounts. -/
theorem C6_type_filter_float_total :
    filter_by_type dbTenTwenty 1 (some 10) (some "INVALID")
      = .badRequest "type must be CREDIT or DEBIT"
  ∧ filter_by_type dbTenTwenty 1 (some 10) none
      = .badRequest "type must be CREDIT or DEBIT"
  ∧ tfCount (filter_by_type dbTenTwenty 1 (some 10) (some "CREDIT")) = some 2
  ∧ ¬ tfTotalEqCents (filter_by_type dbTenTwenty 1 (some 10) (some "CREDIT")) 30 := by decide

/-- C2 (code bug): counts are as claimed, but the statistics money totals are
accumulated through `float(...)` (views.py 259-261): over two customers whose
per-customer summary credits are 0.10 and 0.20 (exact sum 0.30), the
statistics `total_credit` is `float(0.10) + float(0.20) ≠ 0.30`. -/
theorem C2_statistics_float_drift :
    (statistics dbStats 1).total_customers = 2
  ∧ (statistics dbStats 1).total_entries = 2
  ∧ (get_summary dbStats 10).total_credit + (get_summary dbStats 20).total_credit = 30
  ∧ ¬ fracEqCents (statistics dbStats 1).total_credit 30 := by decide

/-- Body of a POST `/ledger-entries/` request: `customer` is read from the raw
request data by `perform_create`; the serializer validates `type`, `amount`
(Decimal with at most 12 digits) and passes `note` through. -/
structure EntryCreateReq where
  customer : Option ℕ
  typeStr : String
  amount : ℤ
  note : Option String
deriving DecidableEq

/-- `DecimalField(max_digits=12, decimal_places=2)` accepts amounts of at most
12 digits, i.e. absolute value below 10^10 = 10^12 cents. -/
def validAmountCents (c : ℤ) : Bool := decide (|c| < 10 ^ 12)

/-- `LedgerEntrySerializer.is_valid()`: `type` must be one of the model
choices and `amount` a valid Decimal(12,2). -/
def entryReqValid (r : EntryCreateReq) : Bool :=
  (decide (r.typeStr = "CREDIT") || decide (r.typeStr = "DEBIT")) && validAmountCents r.amount

/-- Conversion of an already-validated `type` string to the stored type. -/
def parseEntryType (s : String) : EntryType :=
  if s = "CREDIT" then .credit else .debit

/-- `LedgerEntryViewSet.perform_create` (views.py 110-119): look up the
customer by id *and* owner; on success save the entry; on `DoesNotExist` the
code builds a 404 Response and returns it — but DRF's `CreateModelMixin.create`
discards `perform_create`'s return value, so that Response never reaches the
client and the database is simply left unchanged.  `today`, `now` and `newId`
are the store-assigned `entry_date`, `created_at` and primary key. -/
def perform_create (db : DB) (uid : ℕ) (r : EntryCreateReq) (today : Date) (now newId : ℕ) : DB :=
  match r.customer with
  | none => db
  | some cid =>
    match findCustomer db uid cid with
    | none => db
    | some c =>
      { db with
        entries := db.entries
          ++ [{ id := newId, customerId := c.id, type := parseEntryType r.typeStr,
                amount := r.amount, note := r.note, entryDate := today, createdAt := now }] }

/-- POST `/ledger-entries/` as executed by DRF's `CreateModelMixin.create`:
validate the serializer (400 on failure), call `perform_create` ignoring its
return value, then respond 201 with the serializer data.  Returns the new
database state and the HTTP status code. -/
def create_entry (db : DB) (uid : ℕ) (r : EntryCreateReq) (today : Date) (now newId : ℕ) :
    DB × ℕ :=
  if entryReqValid r = true then (perform_create db uid r today now newId, 201)
  else (db, 400)

/-- User 2's customer 10, with no entries; user 1 does not own it. -/
def dbForeign : DB := ⟨[⟨10, 2, "Foreign", none, none, 0⟩], []⟩

/-- A well-formed create request of a CREDIT of 5000.00 against customer 10. -/
def reqC3 : EntryCreateReq := ⟨some 10, "CREDIT", 500000, none⟩

/-- C3 (code bug): a create against a customer owned by another user leaves
the store unchanged but answers HTTP 201 (the 404 Response built inside
`perform_create` is discarded by DRF), not a NotFound error; the same request
issued by the owner does create the entry, showing the request was valid. -/
theorem C3_create_answers_201 :
    create_entry dbForeign 1 reqC3 ⟨2024, 6, 1⟩ 5 1 = (dbForeign, 201)
  ∧ (create_entry dbForeign 2 reqC3 ⟨2024, 6, 1⟩ 5 1).2 = 201
  ∧ (create_entry dbForeign 2 reqC3 ⟨2024, 6, 1⟩ 5 1).1.entries
      = [⟨1, 10, EntryType.credit, 500000, none, ⟨2024, 6, 1⟩, 5⟩] := by decide

/-- Splits a character list at every `'-'` (the dashes of `%Y-%m-%d`). -/
def splitDashAux : List Char → List Char → List (List Char)
  | [], acc => [acc.reverse]
  | c :: cs, acc => if c = '-' then acc.reverse :: splitDashAux cs [] else splitDashAux cs (c :: acc)

/-- All maximal dash-free segments of a character list. -/
def splitDash (l : List Char) : List (List Char) := splitDashAux l []

/-- Numeric value of a nonempty all-digit segment, `none` otherwise. -/
def digitsVal? (l : List Char) : Option ℕ :=
  if l ≠ [] ∧ l.all Char.isDigit then some (l.foldl (fun n c => 10 * n + (c.toNat - 48)) 0)
  else none

/-- Gregorian leap-year rule, as used by `datetime.date`. -/
def isLeap (y : ℕ) : Bool :=
  decide (y % 4 = 0 ∧ (y % 100 ≠ 0 ∨ y % 400 = 0))

/-- Number of days of month `m` in year `y` (`datetime` calendar check). -/
def daysInMonth (y m : ℕ) : ℕ :=
  if m = 2 then (if isLeap y then 29 else 28)
  else if m = 4 ∨ m = 6 ∨ m = 9 ∨ m = 11 then 30
  else 31

/-- `datetime.strptime(s, '%Y-%m-%d').date()`: `%Y` is exactly four digits,
`%m` and `%d` one or two digits, the whole string must be consumed, and the
resulting triple must be a real calendar date in years 1-9999 (otherwise
`ValueError`).  Digits are modelled as ASCII. -/
def parseDate (s : String) : Option Date :=
  match splitDash s.data with
  | [ys, ms, ds] =>
    if ys.length = 4 ∧ ms.length ≤ 2 ∧ ds.length ≤ 2 then
      match digitsVal? ys, digitsVal? ms, digitsVal? ds with
      | some y, some m, some d =>
        if 1 ≤ y ∧ 1 ≤ m ∧ m ≤ 12 ∧ 1 ≤ d ∧ d ≤ daysInMonth y m then some ⟨y, m, d⟩ else none
      | _, _, _ => none
    else none
  | _ => none

/-- Python truthiness of `request.query_params.get(p)`: both an absent
parameter and an empty string are falsy, so `if start_date:` skips them. -/
def presentParam (o : Option String) : Option String :=
  match o with
  | none => none
  | some s => if s = "" then none else some s

/-- Response of the `filter_by_date` action (views.py 153-205). -/
inductive DateFilterResp where
  | badRequest (error : String)
  | notFound (error : String)
  | ok (entries : List Entry) (total_entries : ℕ)
deriving DecidableEq

/-- Second half of `filter_by_date`: apply the optional `end_date` bound
(`entry_date__lte`) to the already start-filtered entries, then respond with
the ordered entries and their count. -/
def applyEndDate (es : List Entry) (edO : Option String) : DateFilterResp :=
  match presentParam edO with
  | none => .ok (orderEntries es) es.length
  | some s =>
    match parseDate s with
    | none => .badRequest "Invalid end date format (YYYY-MM-DD expected)"
    | some ed =>
      let es2 := es.filter (fun e => decide (dateLeP e.entryDate ed))
      .ok (orderEntries es2) es2.length

/-- `LedgerEntryViewSet.filter_by_date` (views.py 153-205): require
`customer_id`, resolve the owned customer (404 on miss), then apply the
optional inclusive `start_date` / `end_date` bounds, rejecting a nonempty
unparseable date string with a 400. -/
def filter_by_date (db : DB) (uid : ℕ) (customer_id : Option ℕ) (sdO edO : Option String) :
    DateFilterResp :=
  match customer_id with
  | none => .badRequest "customer_id Needed"
  | some cid =>
    match findCustomer db uid cid with
    | none => .notFound "Customer not found"
    | some c =>
      let base := db.entries.filter (fun e => decide (e.customerId = c.id))
      match presentParam sdO with
      | none => applyEndDate base edO
      | some s =>
        match parseDate s with
        | none => .badRequest "Invalid start date format (YYYY-MM-DD expected)"
        | some sd => applyEndDate (base.filter (fun e => decide (dateLeP sd e.entryDate))) edO

/-- Response of the `by_customer` action (views.py 127-151). -/
inductive ByCustomerResp where
  | badRequest (error : String)
  | notFound (error : String)
  | ok (entries : List Entry) (summary : Summary)
deriving DecidableEq

/-- `LedgerEntryViewSet.by_customer` (views.py 127-151): require
`customer_id`, resolve the owned customer, return all its entries plus its
`get_summary`. -/
def by_customer (db : DB) (uid : ℕ) (customer_id : Option ℕ) : ByCustomerResp :=
  match customer_id with
  | none => .badRequest "customer_id Needed"
  | some cid =>
    match findCustomer db uid cid with
    | none => .notFound "Customer not found"
    | some c =>
      .ok (orderEntries (db.entries.filter (fun e => decide (e.customerId = c.id))))
        (get_summary db c.id)

theorem mem_orderEntries (l : List Entry) (e : Entry) : e ∈ orderEntries l ↔ e ∈ l :=
  (List.perm_insertionSort newestFirst l).mem_iff

theorem length_orderEntries (l : List Entry) : (orderEntries l).length = l.length :=
  (List.perm_insertionSort newestFirst l).length_eq

/-- Effective date bound carried by a query parameter: `none` when the handler
will reject it (nonempty but unparseable), `some none` when no bound applies
(absent or empty parameter), `some (some d)` for a parsed bound `d`. -/
def effDate (o : Option String) : Option (Option Date) :=
  match presentParam o with
  | none => some none
  | some s =>
    match parseDate s with
    | none => none
    | some d => some (some d)

/-- Inclusive date-range membership condition of the claim: the entry date is
at least the start bound (when one applies) and at most the end bound. -/
def inBounds (sb eb : Option Date) (e : Entry) : Prop :=
  (∀ d, sb = some d → dateLeP d e.entryDate) ∧ (∀ d, eb = some d → dateLeP e.entryDate d)

theorem applyEndDate_err (es : List Entry) (edO : Option String)
    (h : effDate edO = none) :
    applyEndDate es edO = .badRequest "Invalid end date format (YYYY-MM-DD expected)" := by
  rcases hpe : presentParam edO with _ | s
  · simp [effDate, hpe] at h
  · rcases hpd : parseDate s with _ | d
    · simp [applyEndDate, hpe, hpd]
    · simp [effDate, hpe, hpd] at h

theorem applyEndDate_ok (es : List Entry) (edO : Option String) (eb : Option Date)
    (h : effDate edO = some eb) :
    ∃ es2 : List Entry, applyEndDate es edO = .ok (orderEntries es2) es2.length
      ∧ ∀ e, e ∈ es2 ↔ (e ∈ es ∧ ∀ d, eb = some d → dateLeP e.entryDate d) := by
  rcases hpe : presentParam edO with _ | s
  · refine ⟨es, ?_, ?_⟩
    · simp [applyEndDate, hpe]
    · simp [effDate, hpe] at h
      simp [← h]
  · rcases hpd : parseDate s with _ | d
    · simp [effDate, hpe, hpd] at h
    · refine ⟨es.filter (fun e => decide (dateLeP e.entryDate d)), ?_, ?_⟩
      · simp [applyEndDate, hpe, hpd]
      · simp [effDate, hpe, hpd] at h
        intro e
        simp [List.mem_filter, ← h]

/-- C5 counterexample: the empty string is not a parseable `YYYY-MM-DD` date,
yet `filter_by_date` with `start_date=""` silently ignores it and answers 200
with all entries, instead of the validation error the claim requires for every
malformed date string (`if start_date:` is false for the empty string). -/
theorem C5_counterexample :
    parseDate "" = none
  ∧ filter_by_date dbCent 1 (some 10) (some "") none
      = .ok [⟨1, 10, EntryType.credit, 1, none, ⟨2024, 1, 1⟩, 0⟩] 1 := by decide

/-- C5 (amended): for an owned customer, a *nonempty* malformed date string is
rejected with a validation error (the empty string is treated as an absent
parameter), and when both effective bounds parse the response holds exactly
the entries with `start_date ≤ entry_date ≤ end_date` (each bound inclusive
and only enforced when given) together with the count of matches. -/
theorem C5_date_filter (db : DB) (uid cid : ℕ) (c : Customer) (sdO edO : Option String)
    (hc : findCustomer db uid cid = some c) :
    (effDate sdO = none →
      filter_by_date db uid (some cid) sdO edO
        = .badRequest "Invalid start date format (YYYY-MM-DD expected)")
  ∧ (∀ sb, effDate sdO = some sb → effDate edO = none →
      filter_by_date db uid (some cid) sdO edO
        = .badRequest "Invalid end date format (YYYY-MM-DD expected)")
  ∧ (∀ sb eb, effDate sdO = some sb → effDate edO = some eb →
      ∃ es n, filter_by_date db uid (some cid) sdO edO = .ok es n
        ∧ n = es.length
        ∧ ∀ e, e ∈ es ↔ (e ∈ db.entries ∧ e.customerId = c.id ∧ inBounds sb eb e)) := by
  have hbase : ∀ e : Entry,
      e ∈ db.entries.filter (fun e => decide (e.customerId = c.id))
        ↔ (e ∈ db.entries ∧ e.customerId = c.id) := by
    intro e; simp [List.mem_filter]
  rcases hps : presentParam sdO with _ | s
  · -- start bound absent or empty
    have hes : effDate sdO = some none := by simp [effDate, hps]
    refine ⟨(by intro h; rw [hes] at h; cases h), ?_, ?_⟩
    · intro sb hsb hend
      simp only [filter_by_date, hc, hps]
      exact applyEndDate_err _ _ hend
    · intro sb eb hsb heb
      rw [hes] at hsb
      obtain ⟨es2, hev, hmem⟩ := applyEndDate_ok
        (db.entries.filter (fun e => decide (e.customerId = c.id))) edO eb heb
      refine ⟨orderEntries es2, es2.length, ?_, (length_orderEntries es2).symm, ?_⟩
      · simp only [filter_by_date, hc, hps]
        exact hev
      · intro e
        rw [mem_orderEntries, hmem e]
        cases hsb
        unfold inBounds
        constructor
        · rintro ⟨h1, h2⟩
          exact ⟨((hbase e).mp h1).1, ((hbase e).mp h1).2, (by rintro d ⟨⟩), h2⟩
        · rintro ⟨h1, h2, _, h4⟩
          exact ⟨(hbase e).mpr ⟨h1, h2⟩, h4⟩
  · -- start parameter present and nonempty
    rcases hpd : parseDate s with _ | sd
    · have hes : effDate sdO = none := by simp [effDate, hps, hpd]
      refine ⟨?_, ?_, ?_⟩
      · intro _
        simp [filter_by_date, hc, hps, hpd]
      · intro sb hsb
        rw [hes] at hsb; cases hsb
      · intro sb eb hsb
        rw [hes] at hsb; cases hsb
    · have hes : effDate sdO = some (some sd) := by simp [effDate, hps, hpd]
      refine ⟨(by intro h; rw [hes] at h; cases h), ?_, ?_⟩
      · intro sb hsb hend
        simp only [filter_by_date, hc, hps, hpd]
        exact applyEndDate_err _ _ hend
      · intro sb eb hsb heb
        rw [hes] at hsb
        obtain ⟨es2, hev, hmem⟩ := applyEndDate_ok
          ((db.entries.filter (fun e => decide (e.customerId = c.id))).filter
            (fun e => decide (dateLeP sd e.entryDate))) edO eb heb
        refine ⟨orderEntries es2, es2.length, ?_, (length_orderEntries es2).symm, ?_⟩
        · simp only [filter_by_date, hc, hps, hpd]
          exact hev
        · intro e
          rw [mem_orderEntries, hmem e]
          cases hsb
          unfold inBounds
          constructor
          · rintro ⟨h1, h2⟩
            rw [List.mem_filter] at h1
            obtain ⟨h1a, h1b⟩ := h1
            rw [decide_eq_true_eq] at h1b
            exact ⟨((hbase e).mp h1a).1, ((hbase e).mp h1a).2,
              (by rintro d ⟨⟩; exact h1b), h2⟩
          · rintro ⟨h1, h2, h3, h4⟩
            refine ⟨?_, h4⟩
            rw [List.mem_filter, decide_eq_true_eq]
            exact ⟨(hbase e).mpr ⟨h1, h2⟩, h3 sd rfl⟩

/-- Witness for C5 at a concrete database, owned customer and parsed bound. -/
theorem C5_witness :
    ∃ es n, filter_by_date dbCent 1 (some 10) (some "2024-01-01") none = .ok es n
      ∧ n = es.length
      ∧ ∀ e, e ∈ es ↔ (e ∈ dbCent.entries ∧ e.customerId = karim.id
          ∧ inBounds (some ⟨2024, 1, 1⟩) none e) :=
  (C5_date_filter dbCent 1 10 karim (some "2024-01-01") none (by decide)).2.2
    (some ⟨2024, 1, 1⟩) none (by decide) (by decide)

/-- Entries of a successful `by_customer` response, `[]` otherwise. -/
def bcEntries : ByCustomerResp → List Entry
  | .ok es _ => es
  | _ => []

/-- Entries of a successful `filter_by_date` response, `[]` otherwise. -/
def dfEntries : DateFilterResp → List Entry
  | .ok es _ => es
  | _ => []

/-- Entries of a successful `filter_by_type` response, `[]` otherwise. -/
def tfEntries : TypeFilterResp → List Entry
  | .ok es _ _ => es
  | _ => []

theorem orderEntries_pairwise (l : List Entry) : (orderEntries l).Pairwise newestFirst :=
  List.sorted_insertionSort newestFirst l

theorem dfEntries_applyEndDate (es : List Entry) (edO : Option String) :
    (dfEntries (applyEndDate es edO)).Pairwise newestFirst := by
  rcases hpe : presentParam edO with _ | s
  · simp only [applyEndDate, hpe]
    exact orderEntries_pairwise _
  · rcases hpd : parseDate s with _ | d
    · simp only [applyEndDate, hpe, hpd]
      exact List.Pairwise.nil
    · simp only [applyEndDate, hpe, hpd]
      exact orderEntries_pairwise _

/-- C9: every entry list returned by the customer-scoped read operations
(`by_customer`, `filter_by_date`, `filter_by_type`) is sorted newest-first by
the pair (entry_date, created_at) in descending (lexicographic) order, the
ordering declared by `LedgerEntry.Meta.ordering`. -/
theorem C9_entries_newest_first (db : DB) (uid : ℕ) (cidO : Option ℕ)
    (sdO edO tO : Option String) :
    (bcEntries (by_customer db uid cidO)).Pairwise newestFirst
  ∧ (dfEntries (filter_by_date db uid cidO sdO edO)).Pairwise newestFirst
  ∧ (tfEntries (filter_by_type db uid cidO tO)).Pairwise newestFirst := by
  refine ⟨?_, ?_, ?_⟩
  · rcases cidO with _ | cid
    · exact List.Pairwise.nil
    · rcases hf : findCustomer db uid cid with _ | c
      · simp only [by_customer, hf, bcEntries]
        exact List.Pairwise.nil
      · simp only [by_customer, hf, bcEntries]
        exact orderEntries_pairwise _
  · rcases cidO with _ | cid
    · exact List.Pairwise.nil
    · rcases hf : findCustomer db uid cid with _ | c
      · simp only [filter_by_date, hf, dfEntries]
        exact List.Pairwise.nil
      · rcases hps : presentParam sdO with _ | s
        · simp only [filter_by_date, hf, hps]
          exact dfEntries_applyEndDate _ _
        · rcases hpd : parseDate s with _ | sd
          · simp only [filter_by_date, hf, hps, hpd, dfEntries]
            exact List.Pairwise.nil
          · simp only [filter_by_date, hf, hps, hpd]
            exact dfEntries_applyEndDate _ _
  · rcases cidO with _ | cid
    · exact List.Pairwise.nil
    · rcases tO with _ | t
      · exact List.Pairwise.nil
      · by_cases ht : t = "CREDIT" ∨ t = "DEBIT"
        · rcases hf : findCustomer db uid cid with _ | c
          · simp only [filter_by_type, if_pos ht, hf, tfEntries]
            exact List.Pairwise.nil
          · simp only [filter_by_type, if_pos ht, hf, tfEntries]
            exact orderEntries_pairwise _
        · simp only [filter_by_type, if_neg ht, tfEntries]
          exact List.Pairwise.nil

/-- Case-normalisation used by `__icontains` (ASCII lowering). -/
def lowerChars (l : List Char) : List Char := l.map Char.toLower

/-- Whether the first list is a prefix of the second, on characters. -/
def startsWithL : List Char → List Char → Bool
  | [], _ => true
  | _ :: _, [] => false
  | a :: as, b :: bs => a == b && startsWithL as bs

/-- Whether `needle` occurs contiguously inside the second list. -/
def containsL (needle : List Char) : List Char → Bool
  | [] => needle.isEmpty
  | c :: rest => startsWithL needle (c :: rest) || containsL needle rest

/-- `field__icontains=q`: case-insensitive substring match. -/
def icontainsStr (hay q : String) : Bool :=
  containsL (lowerChars q.data) (lowerChars hay.data)

/-- `icontains` against a nullable column: SQL `NULL LIKE ...` is not true,
so a missing phone never matches. -/
def icontainsOpt : Option String → String → Bool
  | none, _ => false
  | some h, q => icontainsStr h q

/-- Python `str.strip()` whitespace (ASCII): space and the control characters
9-13 (tab, newline, vertical tab, form feed, carriage return). -/
def isPySpace (c : Char) : Bool :=
  c == ' ' || (9 ≤ c.toNat && c.toNat ≤ 13)

/-- `s.strip()`: drop leading and trailing whitespace characters. -/
def stripChars (l : List Char) : List Char :=
  ((l.dropWhile isPySpace).reverse.dropWhile isPySpace).reverse

/-- `request.query_params.get('q', '').strip()` (views.py 79). -/
def effQuery (qO : Option String) : String := ⟨stripChars (qO.getD "").data⟩

/-- Response of the customer `search` action (views.py 77-89). -/
inductive SearchResp where
  | badRequest (error : String)
  | ok (customers : List Customer)
deriving DecidableEq

/-- `CustomerViewSet.search` (views.py 77-89): strip the `q` parameter; if the
stripped query is empty or shorter than two characters answer 400; otherwise
return the caller's customers whose name or phone contains it
case-insensitively (in the model's `-created_at` order). -/
def search (db : DB) (uid : ℕ) (qO : Option String) : SearchResp :=
  let q := effQuery qO
  if q.length < 2 then .badRequest "At least 2 characters required for search"
  else
    .ok (orderCustomers ((db.customers.filter (fun c => decide (c.userId = uid))).filter
      (fun c => icontainsStr c.name q || icontainsOpt c.phone q)))

theorem mem_orderCustomers (l : List Customer) (c : Customer) :
    c ∈ orderCustomers l ↔ c ∈ l :=
  (List.perm_insertionSort customerNewer l).mem_iff

/-- C7 counterexample: `"a "` is a two-character query string, yet the search
rejects it with the 400 short-query error, because the code strips the query
before measuring its length (views.py 79-80). -/
theorem C7_counterexample :
    ("a ".length = 2)
  ∧ search dbCent 1 (some "a ") = .badRequest "At least 2 characters required for search" := by
  decide

/-- C7 (amended): the query is first stripped of surrounding whitespace; if
the *stripped* query is shorter than 2 characters the search is rejected with
a validation error, and otherwise the result is exactly the caller's customers
whose name or phone contains the stripped query as a case-insensitive
substring. -/
theorem C7_search (db : DB) (uid : ℕ) (qO : Option String) :
    ((effQuery qO).length < 2 →
      search db uid qO = .badRequest "At least 2 characters required for search")
  ∧ (2 ≤ (effQuery qO).length →
      ∃ cs, search db uid qO = .ok cs ∧
        ∀ c, c ∈ cs ↔ (c ∈ db.customers ∧ c.userId = uid
          ∧ (icontainsStr c.name (effQuery qO) || icontainsOpt c.phone (effQuery qO)) = true)) := by
  constructor
  · intro h
    simp only [search]
    rw [if_pos h]
  · intro h
    have hn : ¬ (effQuery qO).length < 2 := by omega
    refine ⟨orderCustomers ((db.customers.filter (fun c => decide (c.userId = uid))).filter
      (fun c => icontainsStr c.name (effQuery qO) || icontainsOpt c.phone (effQuery qO))),
      ?_, ?_⟩
    · simp only [search]
      rw [if_neg hn]
    · intro c
      rw [mem_orderCustomers, List.mem_filter, List.mem_filter]
      simp [and_assoc]

/-- Witness for C7 at a concrete database and query. -/
theorem C7_witness :
    ∃ cs, search dbCent 1 (some "Kar") = .ok cs ∧
      ∀ c, c ∈ cs ↔ (c ∈ dbCent.customers ∧ c.userId = 1
        ∧ (icontainsStr c.name (effQuery (some "Kar"))
            || icontainsOpt c.phone (effQuery (some "Kar"))) = true) :=
  (C7_search dbCent 1 (some "Kar")).2 (by decide)

/-- A registered user row (password hash and Django's own username format
constraints are outside the claims and not modelled). -/
structure RegUser where
  username : String
  email : String
  firstName : String
  lastName : String
deriving DecidableEq

/-- Body of a POST `/auth/register/` request, all serializer fields present. -/
structure RegReq where
  username : String
  email : String
  password : String
  password_confirm : String
  firstName : String
  lastName : String
deriving DecidableEq

/-- Outcome of a registration request. -/
inductive RegResp where
  | badRequest
  | created (user : RegUser)
deriving DecidableEq

/-- `UserRegistrationView.post` with `UserRegistrationSerializer`
(serializers.py 7-26, views.py 20-36): DRF first runs the field-level
validators — `min_length=6` on both password fields and the username
uniqueness constraint of the `User` model — and only then the serializer's
`validate`, which rejects unequal passwords; on success `create_user` appends
the new user.  Any failure leaves the user store unchanged and answers 400. -/
def register (users : List RegUser) (r : RegReq) : List RegUser × RegResp :=
  if r.password.length < 6 ∨ r.password_confirm.length < 6 then (users, .badRequest)
  else if users.any (fun u => decide (u.username = r.username)) then (users, .badRequest)
  else if r.password ≠ r.password_confirm then (users, .badRequest)
  else
    (users ++ [⟨r.username, r.email, r.firstName, r.lastName⟩],
     .created ⟨r.username, r.email, r.firstName, r.lastName⟩)

/-- A request with equal passwords and a fresh username, rejected anyway. -/
def reqShortEqual : RegReq := ⟨"alice", "alice@example.com", "abc", "abc", "", ""⟩

/-- C8 counterexample: the two supplied passwords are equal and the username
is not taken (the user store is empty), yet registration fails and creates no
user, because both passwords are shorter than the 6-character field minimum. -/
theorem C8_counterexample :
    reqShortEqual.password = reqShortEqual.password_confirm
  ∧ register [] reqShortEqual = ([], RegResp.badRequest) := by decide

/-- C8 (amended): unequal passwords always fail with a validation error and
leave the store unchanged; equal passwords that also meet the 6-character
minimum, with a username not already taken, create the user; a duplicate
username is always rejected. -/
theorem C8_registration (users : List RegUser) (r : RegReq) :
    (r.password ≠ r.password_confirm → register users r = (users, .badRequest))
  ∧ (r.password = r.password_confirm → 6 ≤ r.password.length →
      (∀ u ∈ users, u.username ≠ r.username) →
      register users r
        = (users ++ [⟨r.username, r.email, r.firstName, r.lastName⟩],
           .created ⟨r.username, r.email, r.firstName, r.lastName⟩))
  ∧ ((∃ u ∈ users, u.username = r.username) → register users r = (users, .badRequest)) := by
  refine ⟨?_, ?_, ?_⟩
  · intro hne
    unfold register
    split_ifs with h1 h2
    · rfl
    · rfl
    · rfl
  · intro heq hlen hfree
    have h1 : ¬ (r.password.length < 6 ∨ r.password_confirm.length < 6) := by
      rw [← heq]
      omega
    have h2 : ¬ users.any (fun u => decide (u.username = r.username)) = true := by
      simp only [List.any_eq_true, decide_eq_true_eq]
      rintro ⟨u, hu, he⟩
      exact hfree u hu he
    unfold register
    rw [if_neg h1, if_neg h2, if_neg (fun hne => hne heq)]
  · rintro ⟨u, hu, he⟩
    have hA : users.any (fun u => decide (u.username = r.username)) = true :=
      List.any_eq_true.mpr ⟨u, hu, decide_eq_true he⟩
    unfold register
    split_ifs with h1
    · rfl
    · rfl

/-- A fully valid registration request. -/
def reqGood : RegReq := ⟨"bob", "bob@example.com", "secret1", "secret1", "Bob", "B"⟩

/-- Witness for C8: a valid request against an empty store creates the user. -/
theorem C8_witness :
    register [] reqGood
      = ([⟨"bob", "bob@example.com", "Bob", "B"⟩],
         RegResp.created ⟨"bob", "bob@example.com", "Bob", "B"⟩) :=
  (C8_registration [] reqGood).2.1 rfl (by decide) (by simp)

/-- C10: a password field shorter than 6 characters (either of the two) makes
registration fail with a validation error before any user is created — the
`min_length=6` constraint of serializers.py lines 9-10. -/
theorem C10_min_password_length (users : List RegUser) (r : RegReq)
    (h : r.password.length < 6 ∨ r.password_confirm.length < 6) :
    register users r = (users, RegResp.badRequest) := by
  unfold register
  rw [if_pos h]

/-- A request whose passwords are five characters long. -/
def reqShortFive : RegReq := ⟨"carol", "carol@example.com", "abcde", "abcde", "", ""⟩

/-- Witness for C10 at a concrete short-password request. -/
theorem C10_witness : register [] reqShortFive = ([], RegResp.badRequest) :=
  C10_min_password_length [] reqShortFive (Or.inl (by decide))
